import Mathlib

/-!
Shallow embedding of the metric generator (`collector.py`) and of the
dashboard aggregation callbacks (`app.py`) of the real-time chatbot
dashboard, with theorems settling the specification claims.

Conventions used throughout:
* A timestamp is a `Nat` counting minutes since an epoch placed at a
  Monday 00:00, so `t / 60` is the hour bucket, `(t / 60) % 24` the hour
  of day, and `(t / 1440) % 7` the Python `weekday()` (Mon = 0 .. Sun = 6).
* `random.randint(lo, hi)` (both ends inclusive) is embedded as
  `lo + r % (hi - lo + 1)` for an arbitrary draw `r : Nat`.
* `random.uniform(lo, hi)` is embedded as `lo + (hi - lo) * t` over `ℚ`
  for a draw `t` with `0 ≤ t ≤ 1` (CPython documents the closed interval).
-/

namespace Dashboard

/-! ## Metric generator (`collector.py`) -/

/-- `9 <= hour <= 17` — the business-hours band of `collector.py`. -/
def businessHours (hour : Nat) : Bool := 9 ≤ hour && hour ≤ 17

/-- `18 <= hour <= 22` — the evening-peak band of `collector.py`. -/
def eveningPeak (hour : Nat) : Bool := 18 ≤ hour && hour ≤ 22

/-- `random.randint(lo, hi)`: an integer uniform on the inclusive range
`[lo, hi]`, embedded as a function of an arbitrary draw `r`. -/
def randint (lo hi : Int) (r : Nat) : Int := lo + (r % (hi - lo + 1).toNat : Nat)

/-- `random.uniform(lo, hi)`: `lo + (hi - lo) * t` where `t` stands for
`random.random()`. -/
def uniformQ (lo hi t : ℚ) : ℚ := lo + (hi - lo) * t

/-- Per-tick message delta of `collect_messages` (lines 60–66):
`randint(5,15)` in business hours, `randint(8,20)` in the evening peak,
`randint(0,5)` otherwise. -/
def messagesDelta (hour : Nat) (r : Nat) : Int :=
  if businessHours hour then randint 5 15 r
  else if eveningPeak hour then randint 8 20 r
  else randint 0 5 r

/-- Per-tick cost increment of `collect_api_costs` (lines 126–132):
`uniform(0.05,0.15)` in business hours, `uniform(0.08,0.20)` in the evening
peak, `uniform(0.02,0.08)` otherwise. -/
def apiCostDelta (hour : Nat) (t : ℚ) : ℚ :=
  if businessHours hour then uniformQ 0.05 0.15 t
  else if eveningPeak hour then uniformQ 0.08 0.20 t
  else uniformQ 0.02 0.08 t

/-- Per-tick rate change of `collect_rate_limits` (lines 155–161):
`randint(-3,1)` in business hours, `randint(-5,0)` in the evening peak,
`randint(0,2)` otherwise. -/
def rateDelta (hour : Nat) (r : Nat) : Int :=
  if businessHours hour then randint (-3) 1 r
  else if eveningPeak hour then randint (-5) 0 r
  else randint 0 2 r

/-- One tick of `collect_rate_limits` (line 163):
`self.rate_limit = max(80, min(100, self.rate_limit + rate_change))`. -/
def rateLimitTick (v : Int) (hour : Nat) (r : Nat) : Int :=
  max 80 (min 100 (v + rateDelta hour r))

/-- The rate-limit value after a sequence of ticks, each described by its
wall-clock hour and its random draw, starting from the initial value `100`
set in `AnalyticsCollector.__init__` (line 38). -/
def rateLimitRun (ticks : List (Nat × Nat)) : Int :=
  ticks.foldl (fun v p => rateLimitTick v p.1 p.2) 100

/-- One tick of `collect_messages` (line 68): `self.message_count += messages`. -/
def messageTick (count : Int) (hour : Nat) (r : Nat) : Int :=
  count + messagesDelta hour r

/-- One tick of `collect_api_costs` (line 134): `self.api_cost += cost_increment`. -/
def apiCostTick (cost : ℚ) (hour : Nat) (t : ℚ) : ℚ :=
  cost + apiCostDelta hour t

/-- The `active_users` value computed by a tick of `collect_user_activity`
(lines 89–105): a base of 20/30/10 by hour band, scaled by `int(base * 0.7)`
on weekends (`weekday() >= 5`), plus `randint(-5, 5)` noise.  The weekend
scaling is exact for the three bases (`20*0.7 = 14.0`, `30*0.7 = 21.0`,
`10*0.7 = 7.0` as Python floats), so it is embedded as `base * 7 / 10`
in integer arithmetic. -/
def activeUsersValue (hour day : Nat) (noise : Int) : Int :=
  let baseUsers : Int :=
    if businessHours hour then 20
    else if eveningPeak hour then 30
    else 10
  let scaled : Int := if day ≥ 5 then baseUsers * 7 / 10 else baseUsers
  scaled + noise

/-- The noise term `random.randint(-5, 5)` of `collect_user_activity`. -/
def activityNoise (r : Nat) : Int := randint (-5) 5 r

/-- The `cost` fields of the documents appended to the `api_costs`
collection during a run of `collect_api_costs` (lines 134–143): each tick
adds its increment to the running `self.api_cost` and inserts the updated
running value (not the increment). -/
def apiCostDocs : List (Nat × ℚ) → ℚ → List ℚ
  | [], _ => []
  | p :: rest, cost =>
      let c := cost + apiCostDelta p.1 p.2
      c :: apiCostDocs rest c

/-- The `count` fields of the documents appended to the `message_logs`
collection during a run of `collect_messages` (lines 68–77): each tick
adds its delta to the running `self.message_count` but inserts only the
per-tick delta `messages`. -/
def messageDocs : List (Nat × Nat) → Int → List Int
  | [], _ => []
  | p :: rest, count =>
      let d := messagesDelta p.1 p.2
      d :: messageDocs rest (count + d)

/-! ### Bounds helpers -/

theorem uniformQ_mem {lo hi t : ℚ} (hlh : lo ≤ hi) (ht0 : 0 ≤ t) (ht1 : t ≤ 1) :
    lo ≤ uniformQ lo hi t ∧ uniformQ lo hi t ≤ hi := by
  unfold uniformQ
  constructor
  · nlinarith
  · nlinarith

theorem messagesDelta_mem (hour r : Nat) :
    (businessHours hour = true → 5 ≤ messagesDelta hour r ∧ messagesDelta hour r ≤ 15) ∧
    (businessHours hour = false → eveningPeak hour = true →
      8 ≤ messagesDelta hour r ∧ messagesDelta hour r ≤ 20) ∧
    (businessHours hour = false → eveningPeak hour = false →
      0 ≤ messagesDelta hour r ∧ messagesDelta hour r ≤ 5) := by
  unfold messagesDelta randint
  refine ⟨fun hb => ?_, fun hb he => ?_, fun hb he => ?_⟩
  · simp only [hb, if_true]; norm_num; omega
  · simp only [hb, he, if_true, if_false]; norm_num; omega
  · simp only [hb, he, if_false]; norm_num; omega

theorem messagesDelta_nonneg (hour r : Nat) : 0 ≤ messagesDelta hour r := by
  have h := messagesDelta_mem hour r
  cases hb : businessHours hour
  · cases he : eveningPeak hour
    · exact (h.2.2 hb he).1
    · exact le_trans (by norm_num) (h.2.1 hb he).1
  · exact le_trans (by norm_num) (h.1 hb).1

theorem apiCostDelta_mem (hour : Nat) {t : ℚ} (ht0 : 0 ≤ t) (ht1 : t ≤ 1) :
    (businessHours hour = true →
      (0.05 : ℚ) ≤ apiCostDelta hour t ∧ apiCostDelta hour t ≤ 0.15) ∧
    (businessHours hour = false → eveningPeak hour = true →
      (0.08 : ℚ) ≤ apiCostDelta hour t ∧ apiCostDelta hour t ≤ 0.20) ∧
    (businessHours hour = false → eveningPeak hour = false →
      (0.02 : ℚ) ≤ apiCostDelta hour t ∧ apiCostDelta hour t ≤ 0.08) := by
  unfold apiCostDelta
  refine ⟨fun hb => ?_, fun hb he => ?_, fun hb he => ?_⟩
  · simp only [hb, if_true]; exact uniformQ_mem (by norm_num) ht0 ht1
  · simp only [hb, he, if_true, if_false]; exact uniformQ_mem (by norm_num) ht0 ht1
  · simp only [hb, he, if_false]; exact uniformQ_mem (by norm_num) ht0 ht1

theorem apiCostDelta_nonneg (hour : Nat) {t : ℚ} (ht0 : 0 ≤ t) (ht1 : t ≤ 1) :
    0 ≤ apiCostDelta hour t := by
  have h := apiCostDelta_mem hour ht0 ht1
  cases hb : businessHours hour
  · cases he : eveningPeak hour
    · exact le_trans (by norm_num) (h.2.2 hb he).1
    · exact le_trans (by norm_num) (h.2.1 hb he).1
  · exact le_trans (by norm_num) (h.1 hb).1

theorem rateDelta_mem (hour r : Nat) :
    (businessHours hour = true → -3 ≤ rateDelta hour r ∧ rateDelta hour r ≤ 1) ∧
    (businessHours hour = false → eveningPeak hour = true →
      -5 ≤ rateDelta hour r ∧ rateDelta hour r ≤ 0) ∧
    (businessHours hour = false → eveningPeak hour = false →
      0 ≤ rateDelta hour r ∧ rateDelta hour r ≤ 2) := by
  unfold rateDelta randint
  refine ⟨fun hb => ?_, fun hb he => ?_, fun hb he => ?_⟩
  · simp only [hb, if_true]; norm_num; omega
  · simp only [hb, he, if_true, if_false]; norm_num; omega
  · simp only [hb, he, if_false]; norm_num; omega

theorem rateLimitTick_mem (v : Int) (hour r : Nat) :
    80 ≤ rateLimitTick v hour r ∧ rateLimitTick v hour r ≤ 100 := by
  unfold rateLimitTick
  constructor
  · exact le_max_left 80 _
  · exact max_le (by norm_num) (le_trans (min_le_left _ _) (by norm_num))

theorem rateLimitRun_aux (ticks : List (Nat × Nat)) (v : Int)
    (h80 : 80 ≤ v) (h100 : v ≤ 100) :
    80 ≤ ticks.foldl (fun v p => rateLimitTick v p.1 p.2) v ∧
      ticks.foldl (fun v p => rateLimitTick v p.1 p.2) v ≤ 100 := by
  induction ticks generalizing v with
  | nil => exact ⟨h80, h100⟩
  | cons p rest ih =>
      have hm := rateLimitTick_mem v p.1 p.2
      exact ih (rateLimitTick v p.1 p.2) hm.1 hm.2

/-! ## Aggregation layer (`app.py`) -/

/-- Insert into a list sorted by `le` (used to embed ascending sorts:
MongoDB's `$sort: 1` and pandas' sorted pivot axes). -/
def insertAsc (le : Nat → Nat → Bool) (x : Nat) : List Nat → List Nat
  | [] => [x]
  | y :: ys => if le x y then x :: y :: ys else y :: insertAsc le x ys

/-- Ascending insertion sort on `Nat` keys. -/
def sortAsc (l : List Nat) : List Nat := l.foldr (insertAsc (· ≤ ·)) []

/-- The `$match` window filter used by every chart callback:
`start_time <= timestamp <= end_time` (`$gte`/`$lte`). -/
def inWindow (s e t : Nat) : Bool := s ≤ t && t ≤ e

/-- The `$dateToString {format: "%Y-%m-%d %H:00"}` group key of
`update_message_volume`, embedded as the hour index `t / 60`: on such
zero-padded strings the `$sort: {_id: 1}` lexicographic order coincides
with the numeric order of the hour index. -/
def hourBucket (t : Nat) : Nat := t / 60

/-- MongoDB `$hour`: the hour of day of a timestamp. -/
def mongoHour (t : Nat) : Nat := (t / 60) % 24

/-- MongoDB `$dayOfWeek`: 1 = Sunday .. 7 = Saturday.  With the epoch at a
Monday, the day index is `t / 1440` and Monday maps to 2, Sunday to 1. -/
def mongoDayOfWeek (t : Nat) : Nat := (t / 1440 + 1) % 7 + 1

/-- Python `datetime.weekday()` convention: Mon = 0 .. Sun = 6. -/
def pyWeekday (t : Nat) : Nat := (t / 1440) % 7

/-- A document of the `message_logs` collection: `{timestamp, count}`,
where `count` is the per-tick message delta (`collect_messages`). -/
structure MsgSample where
  ts : Nat
  count : Nat
deriving DecidableEq, Repr

/-- A document of the `user_activity` collection: `{timestamp, count}`,
where `count` is the `active_users` value at that tick. -/
structure ActSample where
  ts : Nat
  count : Int
deriving DecidableEq, Repr

/-- A document of the `api_costs` collection: `{timestamp, cost}`. -/
structure CostSample where
  ts : Nat
  cost : ℚ
deriving DecidableEq, Repr

/-- A document of the `rate_limits` collection: `{timestamp, remaining}`. -/
structure RateSample where
  ts : Nat
  remaining : Int
deriving DecidableEq, Repr

/-- The aggregation pipeline of `update_message_volume` (lines 201–226):
`$match` on the trailing window, `$group` by the hour-truncated timestamp
string with `count: {$sum: 1}` (a tally of matching documents), then
`$sort: {_id: 1}` ascending. -/
def messageVolumePipeline (s e : Nat) (samples : List MsgSample) :
    List (Nat × Nat) :=
  let matched := samples.filter (fun m => inWindow s e m.ts)
  let keys := sortAsc ((matched.map (fun m => hourBucket m.ts)).dedup)
  keys.map (fun k => (k, (matched.filter (fun m => hourBucket m.ts == k)).length))

/-- What the spec prescribes for the message-volume chart: the same
grouping, but summing the per-sample `count` fields inside each hourly
bucket instead of tallying rows. -/
def messageVolumeSpec (s e : Nat) (samples : List MsgSample) :
    List (Nat × Nat) :=
  let matched := samples.filter (fun m => inWindow s e m.ts)
  let keys := sortAsc ((matched.map (fun m => hourBucket m.ts)).dedup)
  keys.map (fun k =>
    (k, ((matched.filter (fun m => hourBucket m.ts == k)).map MsgSample.count).sum))

/-- The `$group` stage of `update_activity_heatmap` (lines 371–391):
group in-window samples by `($hour, $dayOfWeek)` with `count: {$sum: 1}`
(again a tally of rows, not a sum of the `count` fields). -/
def heatmapCells (s e : Nat) (samples : List ActSample) :
    List ((Nat × Nat) × Nat) :=
  let matched := samples.filter (fun a => inWindow s e a.ts)
  let keys := ((matched.map (fun a => (mongoHour a.ts, mongoDayOfWeek a.ts))).dedup)
  keys.map (fun k =>
    (k, (matched.filter
          (fun a => (mongoHour a.ts, mongoDayOfWeek a.ts) == k)).length))

/-- The distinct hour values present in the grouped cells, ascending: the
row index of the pandas `pivot(index='hour', ...)`. -/
def pivotRows (cells : List ((Nat × Nat) × Nat)) : List Nat :=
  sortAsc ((cells.map (fun c => c.1.1)).dedup)

/-- The distinct `$dayOfWeek` values present in the grouped cells,
ascending: the column index of the pandas `pivot(..., columns='day')`. -/
def pivotCols (cells : List ((Nat × Nat) × Nat)) : List Nat :=
  sortAsc ((cells.map (fun c => c.1.2)).dedup)

/-- The pandas `pivot` + `fillna(0)` of `update_activity_heatmap`
(lines 398–399): a grid over the hours and days that actually occur in the
data (pandas creates rows and columns only for observed index values),
with absent (hour, day) combinations filled with 0.  `df.values` lists the
grid row-major: one row per hour, one entry per day column. -/
def pivotGrid (cells : List ((Nat × Nat) × Nat)) : List (List Nat) :=
  (pivotRows cells).map (fun h =>
    (pivotCols cells).map (fun d =>
      ((cells.find? (fun c => c.1 == (h, d))).map (fun c => c.2)).getD 0))

/-- A pandas DataFrame as used by the chart callbacks: its rows, and its
column labels.  `pd.DataFrame(results)` on an empty result list produces a
frame with no columns at all, which is what makes the subsequent column
access raise. -/
structure PyDataFrame (α : Type) where
  rows : List α
  cols : List String
deriving Repr

/-- `pd.DataFrame(results)`: the columns are the document keys when there
is at least one row, and empty otherwise. -/
def mkDF (rows : List α) (colsWhenNonempty : List String) : PyDataFrame α :=
  ⟨rows, if rows.isEmpty then [] else colsWhenNonempty⟩

/-- `df[name]`: the projected column when `name` is among the frame's
columns, and a Python `KeyError` otherwise. -/
def PyDataFrame.col (df : PyDataFrame α) (name : String) (proj : α → β) :
    Except String (List β) :=
  if df.cols.contains name then Except.ok (df.rows.map proj)
  else Except.error ("KeyError: " ++ name)

/-- The data series built by `update_message_volume` (lines 195–245):
run the pipeline, build a DataFrame, and read `df['count']` as the y
series against the bucket index — raising `KeyError` when the window is
empty, since the empty DataFrame has no `count` column. -/
def updateMessageVolume (s e : Nat) (samples : List MsgSample) :
    Except String (List (Nat × Nat)) :=
  let results := messageVolumePipeline s e samples
  let df := mkDF results ["_id", "count"]
  (df.col "count" Prod.snd).map (fun ys => (results.map Prod.fst).zip ys)

/-- The windowed query of `update_cost_chart` (lines 271–276): all
`api_costs` documents in the trailing window, sorted ascending by
timestamp. -/
def costResults (s e : Nat) (samples : List CostSample) : List CostSample :=
  let matched := samples.filter (fun c => inWindow s e c.ts)
  (sortAsc ((matched.map CostSample.ts).dedup)).flatMap
    (fun t => matched.filter (fun c => c.ts == t))

/-- The data series built by `update_cost_chart` (lines 265–295): read
`df['cost']` against the timestamp index — raising `KeyError` on an empty
window. -/
def updateCostChart (s e : Nat) (samples : List CostSample) :
    Except String (List (Nat × ℚ)) :=
  let results := costResults s e samples
  let df := mkDF results ["_id", "timestamp", "cost"]
  (df.col "cost" CostSample.cost).map
    (fun ys => (results.map CostSample.ts).zip ys)

/-- The windowed query of `update_rate_limit_chart` (lines 321–326). -/
def rateResults (s e : Nat) (samples : List RateSample) : List RateSample :=
  let matched := samples.filter (fun c => inWindow s e c.ts)
  (sortAsc ((matched.map RateSample.ts).dedup)).flatMap
    (fun t => matched.filter (fun c => c.ts == t))

/-- The data series built by `update_rate_limit_chart` (lines 315–345):
read `df['remaining']` — raising `KeyError` on an empty window. -/
def updateRateLimitChart (s e : Nat) (samples : List RateSample) :
    Except String (List (Nat × Int)) :=
  let results := rateResults s e samples
  let df := mkDF results ["_id", "timestamp", "remaining"]
  (df.col "remaining" RateSample.remaining).map
    (fun ys => (results.map RateSample.ts).zip ys)

/-- The heatmap `z` matrix built by `update_activity_heatmap`
(lines 365–408): the pivoted grid when the grouped result is nonempty, and
the empty `df.values` of the raw empty frame otherwise (the pivot is
guarded by `if not df.empty`, and no column is accessed, so the empty
window yields an empty grid rather than an error). -/
def updateActivityHeatmap (s e : Nat) (samples : List ActSample) :
    Except String (List (List Nat)) :=
  let results := heatmapCells s e samples
  if results.isEmpty then Except.ok []
  else Except.ok (pivotGrid results)

/-- The x-axis labels hard-coded on the heatmap figure (line 404). -/
def dayLabels : List String := ["Mon", "Tue", "Wed", "Thu", "Fri", "Sat", "Sun"]

/-- The day label under which the heatmap displays a sample: the figure
pairs the grid's j-th column with `dayLabels[j]`, and the sample's column
is the position of its `$dayOfWeek` value among the ascending distinct
day values of the pivot. -/
def displayedDayLabel (s e : Nat) (samples : List ActSample) (t : Nat) : String :=
  let cols := pivotCols (heatmapCells s e samples)
  dayLabels.getD (cols.indexOf (mongoDayOfWeek t)) ""

/-- The Mon-first label of the actual day of week of a timestamp. -/
def actualDayLabel (t : Nat) : String := dayLabels.getD (pyWeekday t) ""

/-! ## Snapshot formatting (`update_stats`, `app.py` lines 177–189) -/

/-- Insert a comma before every group of three digits, walking a reversed
digit list (position `i` counts digits already emitted). -/
def commaGroupRev : Nat → List Char → List Char
  | _, [] => []
  | i, c :: cs =>
      if i % 3 = 0 && i ≠ 0 then ',' :: c :: commaGroupRev (i + 1) cs
      else c :: commaGroupRev (i + 1) cs

/-- Python's `f"{int(x):,}"`: decimal digits in groups of three separated
by commas, with a leading minus sign for negative values. -/
def pythonIntComma (n : Int) : String :=
  let digits := (toString n.natAbs).data
  let grouped := (commaGroupRev 0 digits.reverse).reverse
  (if n < 0 then "-" else "") ++ String.mk grouped

/-- Round a rational to the nearest integer, ties to even — the rounding
used by Python's fixed-point float formatting. -/
def roundHalfEven (q : ℚ) : Int :=
  let f := ⌊q⌋
  let r := q - (f : ℚ)
  if r < 1 / 2 then f
  else if 1 / 2 < r then f + 1
  else if f % 2 = 0 then f else f + 1

/-- Two-digit zero-padded rendering of a value below 100. -/
def twoDigits (n : Nat) : String :=
  if n < 10 then "0" ++ toString n else toString n

/-- Python's `f"{x:.2f}"` on an exactly-represented value: round `x * 100`
half-to-even and render with two decimal places. -/
def fixed2 (q : ℚ) : String :=
  let n := roundHalfEven (q * 100)
  (if n < 0 then "-" else "") ++
    toString (n.natAbs / 100) ++ "." ++ twoDigits (n.natAbs % 100)

/-- The stat-card strings produced by `update_stats` (lines 177–189): each
fast-store read falls back to a default via `or` (`0`, and `100` for
`rate_limit`) when the key is absent, then the four values are rendered as
`f"{int(v):,}"`, `f"{int(v):,}"`, `f"${float(v):.2f}"` and `f"{int(v)}%"`. -/
def updateStats (totalMessages activeUsers : Option Int) (apiCost : Option ℚ)
    (rateLimit : Option Int) : String × String × String × String :=
  (pythonIntComma (totalMessages.getD 0),
   pythonIntComma (activeUsers.getD 0),
   "$" ++ fixed2 (apiCost.getD 0),
   toString (rateLimit.getD 100) ++ "%")

/-! ## Further helper lemmas -/

theorem fixed2_point_one : fixed2 (0.1 : ℚ) = "0.10" := by
  have h2 : ((0.1 : ℚ) * 100) = 10 := by norm_num
  have h : roundHalfEven ((0.1 : ℚ) * 100) = 10 := by
    simp only [roundHalfEven, h2]
    norm_num
  simp only [fixed2, h]
  rfl

theorem fixed2_zero : fixed2 (0 : ℚ) = "0.00" := by
  have h2 : ((0 : ℚ) * 100) = 0 := by norm_num
  have h : roundHalfEven ((0 : ℚ) * 100) = 0 := by
    simp only [roundHalfEven, h2]
    norm_num
  simp only [fixed2, h]
  rfl

theorem activeUsersValue_ge_two (hour day r : Nat) :
    2 ≤ activeUsersValue hour day (activityNoise r) := by
  simp only [activeUsersValue, activityNoise, randint]
  split_ifs <;> omega

theorem apiCostDocs_chain (cts : List (Nat × ℚ)) (cost : ℚ)
    (hv : ∀ p ∈ cts, 0 ≤ p.2 ∧ p.2 ≤ 1) :
    List.Chain' (· ≤ ·) (cost :: apiCostDocs cts cost) := by
  induction cts generalizing cost with
  | nil => simp [apiCostDocs]
  | cons p rest ih =>
      simp only [apiCostDocs]
      rw [List.chain'_cons]
      refine ⟨?_, ih (cost + apiCostDelta p.1 p.2) (fun q hq => hv q (by simp [hq]))⟩
      have hp := hv p (by simp)
      have := apiCostDelta_nonneg p.1 hp.1 hp.2
      linarith

theorem messageDocs_map (mts : List (Nat × Nat)) (c0 : Int) :
    messageDocs mts c0 = mts.map (fun p => messagesDelta p.1 p.2) := by
  induction mts generalizing c0 with
  | nil => simp [messageDocs]
  | cons p rest ih => simp [messageDocs, ih]

/-! ## Claim theorems -/

/-- C1: the message-volume aggregation does not sum the `count` fields.
At the spec's own example — two samples in the 09:00 hour with counts 4
and 6 (timestamps 09:13 and 09:47 of epoch day 0) — the `$sum: 1` group
stage of `update_message_volume` tallies rows and yields the single bucket
value 2, whereas summing the `count` fields as the claim states would
yield 10. -/
theorem c1_message_volume_tallies_rows :
    messageVolumePipeline 0 1440 [⟨9 * 60 + 13, 4⟩, ⟨9 * 60 + 47, 6⟩] = [(9, 2)] ∧
      messageVolumeSpec 0 1440 [⟨9 * 60 + 13, 4⟩, ⟨9 * 60 + 47, 6⟩] = [(9, 10)] := by
  constructor <;> rfl

/-- C2: the heatmap grid is not a dense 7×24 grid.  A single in-window
sample at hour 3 on a Wednesday (timestamp 3060, window = that Wednesday)
pivots into a 1×1 grid — pandas `pivot` creates rows and columns only for
the hour and day values that occur in the data — and its one cell holds
the row tally 1, not 24 rows × 7 columns with 167 zero cells. -/
theorem c2_heatmap_grid_not_dense :
    pivotGrid (heatmapCells 2880 4320 [⟨3060, 5⟩]) = [[1]] ∧
      (pivotGrid (heatmapCells 2880 4320 [⟨3060, 5⟩])).length ≠ 24 ∧
      ((pivotGrid (heatmapCells 2880 4320 [⟨3060, 5⟩])).map List.length).sum ≠ 168 := by
  refine ⟨rfl, ?_, ?_⟩ <;> decide

/-- C3: on a trailing window containing no samples, the message-volume,
cost and rate-limit callbacks do not return an empty series: each builds
`pd.DataFrame` from an empty result list — a frame with no columns — and
the unguarded column access (`df['count']`, `df['cost']`,
`df['remaining']`) raises `KeyError`.  Only the heatmap callback, which
accesses no column, yields an empty grid. -/
theorem c3_empty_window_raises :
    updateMessageVolume 0 1440 [⟨5000, 3⟩] = Except.error "KeyError: count" ∧
      updateCostChart 0 1440 [⟨5000, 3⟩] = Except.error "KeyError: cost" ∧
      updateRateLimitChart 0 1440 [⟨5000, 3⟩] = Except.error "KeyError: remaining" ∧
      updateActivityHeatmap 0 1440 [⟨5000, 3⟩] = Except.ok [] := by
  refine ⟨rfl, rfl, rfl, rfl⟩

/-- C4: the heatmap displays a sample under a Mon-first label that does
not match its actual day of week.  A sample taken on a Sunday (timestamp
9240, window = that Sunday) has `$dayOfWeek = 1` (MongoDB numbers Sunday
as day 1); it lands in the grid's first column, which the figure labels
"Mon", while its actual Mon-first day label is "Sun" — the code never maps
the store's numbering to the display convention. -/
theorem c4_sunday_displayed_as_monday :
    displayedDayLabel 8640 10080 [⟨9240, 3⟩] 9240 = "Mon" ∧
      actualDayLabel 9240 = "Sun" ∧
      displayedDayLabel 8640 10080 [⟨9240, 3⟩] 9240 ≠ actualDayLabel 9240 := by
  refine ⟨rfl, rfl, ?_⟩; decide

/-- C5 (counterexample): the claim that some hour, day and noise draw make
the computed `active_users` negative is false — for every hour, every
weekday and every `randint(-5, 5)` draw the value is at least 2, because
the smallest weekend-scaled base is `int(10 * 0.7) = 7` and the noise is
at least `-5`. -/
theorem c5_negative_active_users_impossible :
    ¬ ∃ (hour day r : Nat), activeUsersValue hour day (activityNoise r) < 0 := by
  rintro ⟨hour, day, r, hlt⟩
  have := activeUsersValue_ge_two hour day r
  omega

/-- C5 (amended): with no clamp applied, the `active_users` value computed
by a user-activity tick is never negative: for every hour, day of week and
noise draw it is at least 2. -/
theorem c5_active_users_at_least_two (hour day r : Nat) :
    0 ≤ activeUsersValue hour day (activityNoise r) ∧
      2 ≤ activeUsersValue hour day (activityNoise r) := by
  have := activeUsersValue_ge_two hour day r
  omega

/-- C6: starting from the initial value 100, after every sequence of
rate-limit ticks (each adding its band-dependent delta and clamping with
`max(80, min(100, ·))`) the rate-limit value lies in [80, 100]. -/
theorem c6_rate_limit_clamped (ticks : List (Nat × Nat)) :
    80 ≤ rateLimitRun ticks ∧ rateLimitRun ticks ≤ 100 :=
  rateLimitRun_aux ticks 100 (by norm_num) (by norm_num)

/-- C7: for every hour band and every random draw, the per-tick deltas lie
within the documented inclusive bounds: messages in [5,15] during business
hours (09–17), [8,20] during the evening peak (18–22), [0,5] otherwise;
api-cost increments in [0.05,0.15], [0.08,0.20], [0.02,0.08]; rate-limit
changes in [-3,1], [-5,0], [0,2]. -/
theorem c7_deltas_within_bounds (hour r : Nat) (t : ℚ)
    (ht0 : 0 ≤ t) (ht1 : t ≤ 1) :
    (businessHours hour = true →
      5 ≤ messagesDelta hour r ∧ messagesDelta hour r ≤ 15 ∧
      (0.05 : ℚ) ≤ apiCostDelta hour t ∧ apiCostDelta hour t ≤ 0.15 ∧
      -3 ≤ rateDelta hour r ∧ rateDelta hour r ≤ 1) ∧
    (businessHours hour = false → eveningPeak hour = true →
      8 ≤ messagesDelta hour r ∧ messagesDelta hour r ≤ 20 ∧
      (0.08 : ℚ) ≤ apiCostDelta hour t ∧ apiCostDelta hour t ≤ 0.20 ∧
      -5 ≤ rateDelta hour r ∧ rateDelta hour r ≤ 0) ∧
    (businessHours hour = false → eveningPeak hour = false →
      0 ≤ messagesDelta hour r ∧ messagesDelta hour r ≤ 5 ∧
      (0.02 : ℚ) ≤ apiCostDelta hour t ∧ apiCostDelta hour t ≤ 0.08 ∧
      0 ≤ rateDelta hour r ∧ rateDelta hour r ≤ 2) := by
  have hm := messagesDelta_mem hour r
  have hc := apiCostDelta_mem hour ht0 ht1
  have hr := rateDelta_mem hour r
  refine ⟨fun hb => ?_, fun hb he => ?_, fun hb he => ?_⟩
  · exact ⟨(hm.1 hb).1, (hm.1 hb).2, (hc.1 hb).1, (hc.1 hb).2,
      (hr.1 hb).1, (hr.1 hb).2⟩
  · exact ⟨(hm.2.1 hb he).1, (hm.2.1 hb he).2, (hc.2.1 hb he).1,
      (hc.2.1 hb he).2, (hr.2.1 hb he).1, (hr.2.1 hb he).2⟩
  · exact ⟨(hm.2.2 hb he).1, (hm.2.2 hb he).2, (hc.2.2 hb he).1,
      (hc.2.2 hb he).2, (hr.2.2 hb he).1, (hr.2.2 hb he).2⟩

/-- C7 witness: hour 10 is a business hour, the draw `t = 1/2` is a valid
`random.random()` outcome, and the business-hour bounds hold there. -/
theorem c7_deltas_within_bounds_witness :
    (0 : ℚ) ≤ 1 / 2 ∧ ((1 : ℚ) / 2 ≤ 1) ∧ businessHours 10 = true ∧
      (5 ≤ messagesDelta 10 3 ∧ messagesDelta 10 3 ≤ 15 ∧
        (0.05 : ℚ) ≤ apiCostDelta 10 (1 / 2) ∧ apiCostDelta 10 (1 / 2) ≤ 0.15 ∧
        -3 ≤ rateDelta 10 3 ∧ rateDelta 10 3 ≤ 1) :=
  ⟨by norm_num, by norm_num, rfl,
    (c7_deltas_within_bounds 10 3 (1 / 2) (by norm_num) (by norm_num)).1 rfl⟩

/-- C8: each tick adds a non-negative delta to the running counters, so
`message_count` and `api_cost` are non-decreasing across every pair of
consecutive ticks. -/
theorem c8_counters_monotone (count : Int) (cost : ℚ) (h1 h2 r : Nat)
    (t : ℚ) (ht0 : 0 ≤ t) (ht1 : t ≤ 1) :
    count ≤ messageTick count h1 r ∧ cost ≤ apiCostTick cost h2 t := by
  constructor
  · have := messagesDelta_nonneg h1 r
    simp only [messageTick]
    omega
  · have := apiCostDelta_nonneg h2 ht0 ht1
    simp only [apiCostTick]
    linarith

/-- C8 witness: at a concrete state and valid draw, one tick does not
decrease either counter. -/
theorem c8_counters_monotone_witness :
    (0 : ℚ) ≤ 1 / 4 ∧ ((1 : ℚ) / 4 ≤ 1) ∧
      (42 : Int) ≤ messageTick 42 10 7 ∧ (1 / 10 : ℚ) ≤ apiCostTick (1 / 10) 23 (1 / 4) :=
  ⟨by norm_num, by norm_num,
    (c8_counters_monotone 42 (1 / 10) 10 23 7 (1 / 4) (by norm_num) (by norm_num)).1,
    (c8_counters_monotone 42 (1 / 10) 10 23 7 (1 / 4) (by norm_num) (by norm_num)).2⟩

/-- C9: the snapshot formatter renders `1234567` with thousands separators,
the cost `0.1` as `"$0.10"`, the rate limit `97` as `"97%"`; and when every
key is absent it falls back to the defaults (`0`, and `100` for the rate
limit), rendering `"0"`, `"$0.00"` and `"100%"` rather than erroring. -/
theorem c9_update_stats_formats :
    updateStats (some 1234567) (some 1234567) (some 0.1) (some 97) =
        ("1,234,567", "1,234,567", "$0.10", "97%") ∧
      updateStats none none none none = ("0", "0", "$0.00", "100%") := by
  constructor
  · simp only [updateStats, Option.getD_some]
    rw [fixed2_point_one]
    rfl
  · simp only [updateStats, Option.getD_none]
    rw [fixed2_zero]
    rfl

/-- C10: within a single generator run with valid draws, the `cost` fields
of successively appended `api_costs` documents form a non-decreasing
sequence (each document records the cumulative running `self.api_cost`),
while the `count` fields of `message_logs` documents are exactly the
per-tick deltas, whatever the running `message_count` is. -/
theorem c10_cost_docs_nondecreasing (cts : List (Nat × ℚ))
    (mts : List (Nat × Nat)) (c0 : Int)
    (hv : ∀ p ∈ cts, 0 ≤ p.2 ∧ p.2 ≤ 1) :
    List.Chain' (· ≤ ·) (apiCostDocs cts 0.10) ∧
      messageDocs mts c0 = mts.map (fun p => messagesDelta p.1 p.2) :=
  ⟨(apiCostDocs_chain cts 0.10 hv).tail, messageDocs_map mts c0⟩

/-- C10 witness: a concrete two-tick cost run with valid draws and a
concrete message run. -/
theorem c10_cost_docs_nondecreasing_witness :
    (∀ p ∈ [((10 : Nat), (1 : ℚ) / 2), ((2 : Nat), (1 : ℚ) / 4)], 0 ≤ p.2 ∧ p.2 ≤ 1) ∧
      List.Chain' (· ≤ ·) (apiCostDocs [(10, 1 / 2), (2, 1 / 4)] 0.10) ∧
      messageDocs [(10, 3), (19, 0)] 0 =
        [(10, 3), (19, 0)].map (fun p => messagesDelta p.1 p.2) := by
  have hv : ∀ p ∈ [((10 : Nat), (1 : ℚ) / 2), ((2 : Nat), (1 : ℚ) / 4)],
      0 ≤ p.2 ∧ p.2 ≤ 1 := by
    intro p hp
    simp only [List.mem_cons, List.mem_singleton] at hp
    rcases hp with h | h | h
    · rw [h]; norm_num
    · rw [h]; norm_num
    · cases h
  exact ⟨hv, c10_cost_docs_nondecreasing [(10, 1 / 2), (2, 1 / 4)] [(10, 3), (19, 0)] 0 hv⟩

end Dashboard
